import Mathlib

/-!
Verification development for the legacy checkout interface
(`src/legacy/interface.js`).

Strings are modelled as `List Char`.  A JS value that may be `undefined`
is modelled as an `Option`.  The two regular expressions of `parseToken`
(`/^(EC-)?[A-Z0-9]{17}$/` anchored, and the unanchored search
`/token=((EC-)?[A-Z0-9]{17})/`) are embedded as executable functions on
character lists, following exactly the backtracking behaviour of the JS
regex engine on these two patterns: the search scans start positions left
to right; at a position the optional `EC-` group is tried first, and on
failure the bare 17-character alternative is tried at the same position.
-/

namespace PaypalLegacy

/-- Character class `[A-Z0-9]` of the token regexes. -/
def isTokenChar (c : Char) : Bool :=
  (decide ('A' ≤ c) && decide (c ≤ 'Z')) || (decide ('0' ≤ c) && decide (c ≤ '9'))

/-- Pattern `[A-Z0-9]{17}` exactly: length 17, all characters in class. -/
def canonicalCore (l : List Char) : Bool :=
  decide (l.length = 17) && l.all isTokenChar

/-- The anchored test `t.match(/^(EC-)?[A-Z0-9]{17}$/)` from `parseToken`
(interface.js line 27): either the whole string is 17 token characters, or
it starts with `EC-` followed by exactly 17 token characters. -/
def isCanonicalToken (l : List Char) : Bool :=
  canonicalCore l || (decide (l.take 3 = ['E', 'C', '-']) && canonicalCore (l.drop 3))

/-- The characters of the literal `token=`. -/
def tokenEq : List Char := ['t', 'o', 'k', 'e', 'n', '=']

/-- The characters of the literal `token` (without `=`). -/
def tokenT : List Char := ['t', 'o', 'k', 'e', 'n']

/-- The characters of the literal `?token=` used by `getFullpageRedirectUrl`. -/
def qtokenEq : List Char := ['?', 't', 'o', 'k', 'e', 'n', '=']

/-- Does the list start with the literal `token=`? -/
def startsWithTokEq (l : List Char) : Bool :=
  decide (l.take 6 = tokenEq)

/-- Does the list contain the literal `token=` as a contiguous substring? -/
def containsTok : List Char → Bool
  | [] => false
  | c :: rest => startsWithTokEq (c :: rest) || containsTok rest

/-- Pattern `[A-Z0-9]{17}` matched greedily at the start of `l`, allowing trailing
characters (the search regex is unanchored on the right): succeeds iff at
least 17 characters remain and the first 17 are token characters. -/
def goodRun17 (l : List Char) : Bool :=
  decide (17 ≤ l.length) && (l.take 17).all isTokenChar

/-- The alternative of the capture group without the `EC-` prefix:
`[A-Z0-9]{17}` at the start of `l`. -/
def plainCapture (l : List Char) : Option (List Char) :=
  if goodRun17 l then some (l.take 17) else none

/-- The capture group `((EC-)?[A-Z0-9]{17})` matched at the start of `l`:
the optional `EC-` branch is tried first (JS `?` is greedy); if it fails
the engine backtracks to the empty prefix and tries `[A-Z0-9]{17}` at the
same position. -/
def matchCapture (l : List Char) : Option (List Char) :=
  if l.take 3 = ['E', 'C', '-'] then
    if goodRun17 (l.drop 3) then some (['E', 'C', '-'] ++ (l.drop 3).take 17)
    else plainCapture l
  else plainCapture l

/-- The unanchored search `t.match(/token=((EC-)?[A-Z0-9]{17})/)`
(interface.js line 33): scan start positions left to right; at each
position require the literal `token=` and then the capture group; if the
whole pattern fails there, move one position right. -/
def findTokenMatch : List Char → Option (List Char)
  | [] => none
  | c :: rest =>
    if startsWithTokEq (c :: rest) then
      match matchCapture (rest.drop 5) with
      | some tok => some tok
      | none => findTokenMatch rest
    else findTokenMatch rest

/-- Function `parseToken` (interface.js lines 19-38).  The input is `none` for JS
`undefined`; the guard `if (!token) return` also catches the empty
string. -/
def parseToken (input : Option (List Char)) : Option (List Char) :=
  match input with
  | none => none
  | some t =>
    if t = [] then none
    else if isCanonicalToken t then some t
    else findTokenMatch t

/-- Modelled from the spec: `matchToken` is imported from
`src/legacy/util.js`, which is not among the sources.  Per the spec
(§4.1, `isUrlForm` and `buildFullPageRedirectUrl`) it tests whether the
input is itself a bare canonical token. -/
def matchToken (l : List Char) : Bool := isCanonicalToken l

/-- Function `getFullpageRedirectUrl` (interface.js lines 41-45), with the external
`config.checkoutUrl` passed as a parameter. -/
def getFullpageRedirectUrl (checkoutUrl : List Char) (token : List Char) : List Char :=
  if matchToken token then checkoutUrl ++ qtokenEq ++ token else token

/-!
## The flow-bridging state machine

The three global slots `window.paypal.checkout.{initXO, startFlow, closeFlow}`
are modelled as a record of abstract function values.  `getPaymentToken`
(interface.js lines 62-123) overwrites the three slots with capture
functions; its inner `reset` assigns the module-level functions `initXO`,
`startFlow` and `closeFlow` back to the slots (it does not save and restore
the values the slots held when `getPaymentToken` ran).

Each capture handler is embedded as a function producing the ordered trace
of its observable steps, pairing every step with the slot state in effect
at that moment, together with the final slot state and whether the handler
returned normally or threw.
-/

/-- An abstract value a global slot can hold: one of the three module-level
functions, one of the capture functions installed by `getPaymentToken`, or
an arbitrary external value written by third-party code. -/
inductive SlotVal where
  | initXODefault
  | startFlowDefault
  | closeFlowDefault
  | captureInitXO
  | captureStartFlow
  | captureCloseFlow
  | external (n : Nat)
deriving DecidableEq

/-- The three global callback slots. -/
structure Slots where
  initXO : SlotVal
  startFlow : SlotVal
  closeFlow : SlotVal
deriving DecidableEq

/-- Errors surfaced by the handlers. -/
inductive ErrKind where
  /-- Error `new Error('Close Flow Called')` (line 117). -/
  | closeFlowErr
  /-- Error `new Error('Expected "..." to contain express-checkout payment token')`
  (lines 90 and 295), carrying the offending raw input. -/
  | protocolErr (raw : Option (List Char))
deriving DecidableEq

/-- Observable steps of the handlers, in program order. -/
inductive Ev where
  | logDebug (tag : String)
  | logWarning (tag : String)
  | logError (tag : String)
  | consoleError (tag : String)
  /-- the `reset()` call writing the three slots -/
  | restore
  /-- the `parseToken(token)` call -/
  | parseInput (input : Option (List Char))
  /-- the `isEligible()` call and its answer -/
  | eligCheck (result : Bool)
  /-- call `redirect(url)` -/
  | redirect (url : List Char)
  /-- call `this.updateProps` with a url prop -/
  | updateProps (url : List Char)
  /-- the acquisition's `resolve(ecToken)` callback -/
  | resolve (tok : List Char)
  /-- the acquisition's `reject(err)` callback -/
  | reject (e : ErrKind)
  /-- call `this.close()` on the hosting component -/
  | closeComponent
  /-- call `initPayPalCheckout` with url and paymentToken props, then render -/
  | render (url : Option (List Char)) (paymentToken : List Char)
deriving DecidableEq

/-- Did the handler return normally or throw? -/
inductive Outcome where
  | ret
  | threw (e : ErrKind)
deriving DecidableEq

/-- Result of running a capture handler: final slot state, ordered trace of
steps (each paired with the slot state in effect when it runs), outcome. -/
structure CaptureRun where
  final : Slots
  trace : List (Slots × Ev)
  outcome : Outcome
deriving DecidableEq

/-- The slot values written by `reset()` (lines 64-71): the module-level
functions `initXO`, `startFlow`, `closeFlow` — not any saved prior
values. -/
def resetSlots : Slots :=
  { initXO := SlotVal.initXODefault
    startFlow := SlotVal.startFlowDefault
    closeFlow := SlotVal.closeFlowDefault }

/-- The slot values installed while an acquisition is armed
(lines 75-122). -/
def armSlots : Slots :=
  { initXO := SlotVal.captureInitXO
    startFlow := SlotVal.captureStartFlow
    closeFlow := SlotVal.captureCloseFlow }

/-- Arming (`getPaymentToken` being invoked in precall mode): the three
slots are overwritten with the capture functions, whatever they held. -/
def getPaymentToken (st : Slots) : Slots :=
  match st with
  | _ => armSlots

/-- The `startFlow` capture handler (lines 81-108).  `armedSt` is the slot
state at the moment of invocation; `eligible` is the answer `isEligible()`
returns; `checkoutUrl` is the external `config.checkoutUrl`; `token` is
the raw argument (`none` for `undefined`). -/
def startFlowCapture (armedSt : Slots) (eligible : Bool) (checkoutUrl : List Char)
    (token : Option (List Char)) : CaptureRun :=
  match parseToken token with
  | none =>
    { final := resetSlots
      trace := [(armedSt, Ev.logDebug "paymenttoken_startflow"),
                (resetSlots, Ev.restore),
                (resetSlots, Ev.parseInput token),
                (resetSlots, Ev.logError "paymenttoken_startflow_notoken")]
      outcome := Outcome.threw (ErrKind.protocolErr token) }
  | some ecToken =>
    let rawTok := token.getD []
    if eligible then
      if matchToken rawTok then
        { final := resetSlots
          trace := [(armedSt, Ev.logDebug "paymenttoken_startflow"),
                    (resetSlots, Ev.restore),
                    (resetSlots, Ev.parseInput token),
                    (resetSlots, Ev.eligCheck true),
                    (resetSlots, Ev.logDebug "paymenttoken_startflow_tokenpassed"),
                    (resetSlots, Ev.resolve ecToken)]
          outcome := Outcome.ret }
      else
        { final := resetSlots
          trace := [(armedSt, Ev.logDebug "paymenttoken_startflow"),
                    (resetSlots, Ev.restore),
                    (resetSlots, Ev.parseInput token),
                    (resetSlots, Ev.eligCheck true),
                    (resetSlots, Ev.logDebug "paymenttoken_startflow_urlpassed"),
                    (resetSlots, Ev.updateProps rawTok),
                    (resetSlots, Ev.resolve ecToken)]
          outcome := Outcome.ret }
    else
      { final := resetSlots
        trace := [(armedSt, Ev.logDebug "paymenttoken_startflow"),
                  (resetSlots, Ev.restore),
                  (resetSlots, Ev.parseInput token),
                  (resetSlots, Ev.eligCheck false),
                  (resetSlots, Ev.logDebug "paymenttoken_startflow_ineligible"),
                  (resetSlots, Ev.redirect (getFullpageRedirectUrl checkoutUrl rawTok))]
        outcome := Outcome.ret }

/-- The `closeFlow` capture handler (lines 112-122). -/
def closeFlowCapture (armedSt : Slots) : CaptureRun :=
  { final := resetSlots
    trace := [(armedSt, Ev.logWarning "paymenttoken_closeflow"),
              (resetSlots, Ev.restore),
              (resetSlots, Ev.reject ErrKind.closeFlowErr),
              (resetSlots, Ev.closeComponent)]
    outcome := Outcome.ret }

/-- The `initXO` capture handler (lines 75-77): logs and does nothing. -/
def initXOCapture (armedSt : Slots) : CaptureRun :=
  { final := armedSt
    trace := [(armedSt, Ev.logDebug "paymenttoken_initxo")]
    outcome := Outcome.ret }

/-- Result of a public entry point that does not touch the slots. -/
structure PubRun where
  trace : List Ev
  outcome : Outcome
deriving DecidableEq

/-- The public (module-level) `startFlow` (lines 287-307). -/
def startFlowPublic (eligible : Bool) (checkoutUrl : List Char)
    (token : Option (List Char)) : PubRun :=
  match parseToken token with
  | none =>
    { trace := [Ev.logDebug "startflow", Ev.parseInput token,
                Ev.logWarning "startflow_notoken"]
      outcome := Outcome.threw (ErrKind.protocolErr token) }
  | some ecToken =>
    let rawTok := token.getD []
    if eligible then
      { trace := [Ev.logDebug "startflow", Ev.parseInput token,
                  Ev.eligCheck true,
                  Ev.render (if matchToken rawTok then none else some rawTok) ecToken]
        outcome := Outcome.ret }
    else
      { trace := [Ev.logDebug "startflow", Ev.parseInput token,
                  Ev.eligCheck false,
                  Ev.logDebug "startflow_ineligible",
                  Ev.redirect (getFullpageRedirectUrl checkoutUrl rawTok)]
        outcome := Outcome.ret }

/-!
## The legacy-API install guard
-/

/-- An abstract value an entry point of the legacy namespace can hold. -/
inductive FnVal where
  | setupFn
  | initXOFn
  | startFlowFn
  | closeFlowFn
  | eventsObj
  | external (n : Nat)
deriving DecidableEq

/-- The legacy namespace `window.paypal.checkout`; `none` models an absent
(or falsy) entry. -/
structure CheckoutNS where
  setup : Option FnVal
  initXO : Option FnVal
  startFlow : Option FnVal
  closeFlow : Option FnVal
  events : Option FnVal
deriving DecidableEq

/-- The install block (interface.js lines 369-388): if `setup` is already
present, log an error and change nothing; otherwise install the five entry
points. -/
def installLegacyAPI (ns : CheckoutNS) : CheckoutNS × List Ev :=
  match ns.setup with
  | some _ => (ns, [Ev.consoleError "window.paypal.checkout already exists"])
  | none =>
    ({ setup := some FnVal.setupFn
       initXO := some FnVal.initXOFn
       startFlow := some FnVal.startFlowFn
       closeFlow := some FnVal.closeFlowFn
       events := some FnVal.eventsObj }, [])

/-- Is the step an invocation of the acquisition's `reject` callback? -/
def isRejectEv : Ev → Bool
  | Ev.reject _ => true
  | _ => false

/-- Is the step an invocation of the acquisition's `resolve` callback? -/
def isResolveEv : Ev → Bool
  | Ev.resolve _ => true
  | _ => false

/-- Steps that belong to the parse / eligibility / redirect / prop-update /
resolve / reject / close logic of a capture handler — everything the
handlers do after their initial log line and the `reset()` call. -/
def postRestoreEv : Ev → Bool
  | Ev.parseInput _ => true
  | Ev.eligCheck _ => true
  | Ev.redirect _ => true
  | Ev.updateProps _ => true
  | Ev.resolve _ => true
  | Ev.reject _ => true
  | Ev.closeComponent => true
  | _ => false

/-!
## Lemmas about the token search
-/

example : parseToken (some "ABCDE12345FGHIJ67".data) = some "ABCDE12345FGHIJ67".data := by decide

example : parseToken (some "EC-1234567890ABCDEFG".data) = some "EC-1234567890ABCDEFG".data := by
  decide

example : parseToken (some "https://x.com/?token=ABCDE12345FGHIJ67&a=b".data)
    = some "ABCDE12345FGHIJ67".data := by decide

example : parseToken (some "not-a-token".data) = none := by decide

example : parseToken (some "".data) = none := by decide

example : parseToken none = none := by rfl

example : parseToken (some "x?token=ABCDEFGHIJKLMNOPQR".data)
    = some "ABCDEFGHIJKLMNOPQ".data := by decide

theorem isTokenChar_of_all_mem {l : List Char} (h : l.all isTokenChar = true)
    {c : Char} (hc : c ∈ l) : isTokenChar c = true := by
  rw [List.all_eq_true] at h
  exact h c hc

theorem startsWithTokEq_head (tail : List Char) :
    startsWithTokEq (tokenEq ++ tail) = true := rfl

theorem startsWithTokEq_append (x y : List Char) (h : 6 ≤ x.length) :
    startsWithTokEq (x ++ y) = startsWithTokEq x := by
  unfold startsWithTokEq
  rw [List.take_append_of_le_length h]

theorem findTokenMatch_head (tail tok : List Char) (h : matchCapture tail = some tok) :
    findTokenMatch (tokenEq ++ tail) = some tok := by
  show findTokenMatch ('t' :: ('o' :: 'k' :: 'e' :: 'n' :: '=' :: tail)) = some tok
  rw [findTokenMatch]
  rw [show startsWithTokEq ('t' :: ('o' :: 'k' :: 'e' :: 'n' :: '=' :: tail)) = true from
    startsWithTokEq_head tail]
  show (match matchCapture tail with
        | some tok => some tok
        | none => findTokenMatch ('o' :: 'k' :: 'e' :: 'n' :: '=' :: tail)) = some tok
  rw [h]

theorem findTokenMatch_append (pre tail tok : List Char)
    (hpre : containsTok (pre ++ tokenT) = false)
    (hcap : matchCapture tail = some tok) :
    findTokenMatch (pre ++ (tokenEq ++ tail)) = some tok := by
  induction pre with
  | nil => simpa using findTokenMatch_head tail tok hcap
  | cons p pre ih =>
    rw [List.cons_append] at hpre ⊢
    rw [containsTok] at hpre
    rcases Bool.or_eq_false_iff.mp hpre with ⟨h1, h2⟩
    have hsplit : p :: (pre ++ (tokenEq ++ tail)) = (p :: (pre ++ tokenT)) ++ ('=' :: tail) := by
      simp [tokenEq, tokenT]
    have hlen : 6 ≤ (p :: (pre ++ tokenT)).length := by
      simp [tokenT]
    have hsw : startsWithTokEq (p :: (pre ++ (tokenEq ++ tail))) = false := by
      rw [hsplit, startsWithTokEq_append _ _ hlen]
      exact h1
    rw [findTokenMatch, hsw]
    simpa using ih h2

theorem findTokenMatch_none (l : List Char) (h : containsTok l = false) :
    findTokenMatch l = none := by
  induction l with
  | nil => rfl
  | cons c rest ih =>
    rw [containsTok] at h
    rcases Bool.or_eq_false_iff.mp h with ⟨h1, h2⟩
    rw [findTokenMatch, h1]
    simpa using ih h2

theorem matchCapture_long (run post : List Char) (hall : run.all isTokenChar = true)
    (hlen : 17 ≤ run.length) :
    matchCapture (run ++ post) = some (run.take 17) := by
  have h3 : (run ++ post).take 3 = run.take 3 :=
    List.take_append_of_le_length (by omega)
  have hne : ¬ (run ++ post).take 3 = ['E', 'C', '-'] := by
    rw [h3]
    intro he
    have hm : '-' ∈ run := List.take_subset 3 run (by rw [he]; decide)
    have := isTokenChar_of_all_mem hall hm
    exact absurd this (by decide)
  have h17 : (run ++ post).take 17 = run.take 17 :=
    List.take_append_of_le_length hlen
  have hgood : goodRun17 (run ++ post) = true := by
    unfold goodRun17
    refine Bool.and_eq_true_iff.mpr ⟨?_, ?_⟩
    · simp only [decide_eq_true_eq, List.length_append]
      omega
    · rw [h17, List.all_eq_true]
      intro x hx
      exact isTokenChar_of_all_mem hall (List.take_subset 17 run hx)
  unfold matchCapture plainCapture
  rw [if_neg hne, if_pos hgood, h17]

theorem matchCapture_ec_long (run post : List Char) (hall : run.all isTokenChar = true)
    (hlen : 17 ≤ run.length) :
    matchCapture ('E' :: 'C' :: '-' :: (run ++ post))
      = some ('E' :: 'C' :: '-' :: run.take 17) := by
  have h17 : (run ++ post).take 17 = run.take 17 :=
    List.take_append_of_le_length hlen
  have hgood : goodRun17 (('E' :: 'C' :: '-' :: (run ++ post)).drop 3) = true := by
    show goodRun17 (run ++ post) = true
    unfold goodRun17
    refine Bool.and_eq_true_iff.mpr ⟨?_, ?_⟩
    · simp only [decide_eq_true_eq, List.length_append]
      omega
    · rw [h17, List.all_eq_true]
      intro x hx
      exact isTokenChar_of_all_mem hall (List.take_subset 17 run hx)
  unfold matchCapture
  rw [if_pos (show ('E' :: 'C' :: '-' :: (run ++ post)).take 3 = ['E', 'C', '-'] from rfl)]
  rw [if_pos hgood]
  show some ('E' :: 'C' :: '-' :: (run ++ post).take 17) = _
  rw [h17]

theorem isCanonicalToken_cases {c : List Char} (h : isCanonicalToken c = true) :
    canonicalCore c = true ∨ (c.take 3 = ['E', 'C', '-'] ∧ canonicalCore (c.drop 3) = true) := by
  unfold isCanonicalToken at h
  rcases Bool.or_eq_true_iff.mp h with h1 | h2
  · exact Or.inl h1
  · rcases Bool.and_eq_true_iff.mp h2 with ⟨ha, hb⟩
    exact Or.inr ⟨of_decide_eq_true ha, hb⟩

theorem matchCapture_canonical (c post : List Char) (h : isCanonicalToken c = true) :
    matchCapture (c ++ post) = some c := by
  rcases isCanonicalToken_cases h with hcore | ⟨h3, hcore⟩
  · rcases Bool.and_eq_true_iff.mp hcore with ⟨hlen, hall⟩
    have hlen17 : c.length = 17 := of_decide_eq_true hlen
    have := matchCapture_long c post hall (by omega)
    rwa [List.take_of_length_le (by omega)] at this
  · rcases Bool.and_eq_true_iff.mp hcore with ⟨hlen, hall⟩
    have hlen17 : (c.drop 3).length = 17 := of_decide_eq_true hlen
    have hc : c = 'E' :: 'C' :: '-' :: c.drop 3 := by
      conv_lhs => rw [← List.take_append_drop 3 c]
      rw [h3]
      rfl
    have := matchCapture_ec_long (c.drop 3) post hall (by omega)
    rw [List.take_of_length_le (by omega)] at this
    calc matchCapture (c ++ post)
        = matchCapture ('E' :: 'C' :: '-' :: (c.drop 3 ++ post)) := by rw [hc]; rfl
      _ = some ('E' :: 'C' :: '-' :: c.drop 3) := this
      _ = some c := by rw [← hc]

theorem not_canonical_of_mem_eq (l : List Char) (h : '=' ∈ l) :
    isCanonicalToken l = false := by
  cases hc : isCanonicalToken l with
  | false => rfl
  | true =>
    exfalso
    rcases isCanonicalToken_cases hc with hcore | ⟨h3, hcore⟩
    · have := isTokenChar_of_all_mem (Bool.and_eq_true_iff.mp hcore).2 h
      exact absurd this (by decide)
    · have hl : l = ['E', 'C', '-'] ++ l.drop 3 := by
        conv_lhs => rw [← List.take_append_drop 3 l]
        rw [h3]
      rw [hl] at h
      rcases List.mem_append.mp h with h1 | h2
      · exact absurd h1 (by decide)
      · have := isTokenChar_of_all_mem (Bool.and_eq_true_iff.mp hcore).2 h2
        exact absurd this (by decide)

theorem parseToken_canonical (s : List Char) (h : isCanonicalToken s = true) :
    parseToken (some s) = some s := by
  have hne : ¬ s = [] := by
    rintro rfl
    exact absurd h (by decide)
  simp [parseToken, hne, h]

theorem parseToken_via_find (pre tail tok : List Char)
    (hpre : containsTok (pre ++ tokenT) = false)
    (hcap : matchCapture tail = some tok) :
    parseToken (some (pre ++ (tokenEq ++ tail))) = some tok := by
  have hmem : '=' ∈ pre ++ (tokenEq ++ tail) := by
    refine List.mem_append.mpr (Or.inr ?_)
    exact List.mem_append.mpr (Or.inl (by decide))
  have hnc := not_canonical_of_mem_eq _ hmem
  have hne : ¬ (pre ++ (tokenEq ++ tail)) = [] := by
    intro h0
    rw [h0] at hmem
    exact absurd hmem (List.not_mem_nil _)
  have hfind := findTokenMatch_append pre tail tok hpre hcap
  simp [parseToken, hne, hnc, hfind]

theorem parseToken_url (pre c post : List Char)
    (hpre : containsTok (pre ++ tokenT) = false)
    (hc : isCanonicalToken c = true) :
    parseToken (some (pre ++ (tokenEq ++ (c ++ post)))) = some c :=
  parseToken_via_find pre (c ++ post) c hpre (matchCapture_canonical c post hc)

theorem parseToken_no_token (s : List Char) (h1 : containsTok s = false)
    (h2 : isCanonicalToken s = false) : parseToken (some s) = none := by
  rcases Decidable.em (s = []) with rfl | hne
  · rfl
  · simp [parseToken, hne, h2, findTokenMatch_none s h1]

/-!
## Claims C6 and C10: the TokenParser contract
-/

/-- C6: `parseToken` satisfies the TokenParser contract: (1) every string
matching the canonical pattern `(EC-)?[A-Z0-9]{17}` exactly is returned
verbatim; (2) a URL-form string whose first `token=` occurrence is
followed by a canonical token yields that canonical token; (3) a string
that contains no `token=` substring and is not itself canonical yields
`undefined`; (4) `undefined` and the empty string yield `undefined`. -/
theorem claim_C6_tokenParser_contract :
    (∀ s : List Char, isCanonicalToken s = true → parseToken (some s) = some s) ∧
    (∀ pre c post : List Char, containsTok (pre ++ tokenT) = false →
      isCanonicalToken c = true →
      parseToken (some (pre ++ (tokenEq ++ (c ++ post)))) = some c) ∧
    (∀ s : List Char, containsTok s = false → isCanonicalToken s = false →
      parseToken (some s) = none) ∧
    parseToken none = none ∧ parseToken (some []) = none :=
  ⟨parseToken_canonical, parseToken_url, parseToken_no_token, rfl, rfl⟩

/-- Witness for C6 at concrete inputs. -/
theorem claim_C6_tokenParser_contract_witness :
    parseToken (some "ABCDE12345FGHIJ67".data) = some "ABCDE12345FGHIJ67".data ∧
    parseToken (some ("x?".data ++ (tokenEq ++ ("EC-ABCDE12345FGHIJ67".data ++ "&a=b".data))))
      = some "EC-ABCDE12345FGHIJ67".data ∧
    parseToken (some "hello".data) = none :=
  ⟨claim_C6_tokenParser_contract.1 "ABCDE12345FGHIJ67".data (by decide),
   claim_C6_tokenParser_contract.2.1 "x?".data "EC-ABCDE12345FGHIJ67".data "&a=b".data
     (by decide) (by decide),
   claim_C6_tokenParser_contract.2.2.1 "hello".data (by decide) (by decide)⟩

/-- C10: the URL-form extraction pattern is unanchored on the right, so a
string whose first `token=` is followed by a run of more than 17
consecutive token characters is not rejected: `parseToken` returns the
first 17 characters of the run (and, when the run is preceded by `EC-`,
the `EC-` prefix plus the first 17 characters). -/
theorem claim_C10_overlong_run :
    (∀ pre run post : List Char, containsTok (pre ++ tokenT) = false →
      run.all isTokenChar = true → 17 < run.length →
      parseToken (some (pre ++ (tokenEq ++ (run ++ post)))) = some (run.take 17) ∧
        (run.take 17).length = 17) ∧
    (∀ pre run post : List Char, containsTok (pre ++ tokenT) = false →
      run.all isTokenChar = true → 17 < run.length →
      parseToken (some (pre ++ (tokenEq ++ ('E' :: 'C' :: '-' :: (run ++ post)))))
        = some ('E' :: 'C' :: '-' :: run.take 17)) := by
  constructor
  · intro pre run post hpre hall hlen
    refine ⟨parseToken_via_find pre (run ++ post) (run.take 17) hpre
      (matchCapture_long run post hall (by omega)), ?_⟩
    simp [List.length_take]
    omega
  · intro pre run post hpre hall hlen
    exact parseToken_via_find pre ('E' :: 'C' :: '-' :: (run ++ post))
      ('E' :: 'C' :: '-' :: run.take 17) hpre
      (matchCapture_ec_long run post hall (by omega))

/-- Witness for C10: an 18-character run after `token=` still parses, to
its first 17 characters, for both the bare and the `EC-` prefixed form. -/
theorem claim_C10_overlong_run_witness :
    parseToken (some ("x?".data ++ (tokenEq ++ ("ABCDEFGHIJKLMNOPQR".data ++ "&z".data))))
      = some "ABCDEFGHIJKLMNOPQ".data ∧
    parseToken (some ("x?".data ++
        (tokenEq ++ ('E' :: 'C' :: '-' :: ("ABCDEFGHIJKLMNOPQR".data ++ "&z".data)))))
      = some ('E' :: 'C' :: '-' :: "ABCDEFGHIJKLMNOPQ".data) := by
  have h1 := (claim_C10_overlong_run.1 "x?".data "ABCDEFGHIJKLMNOPQR".data "&z".data
    (by decide) (by decide) (by decide)).1
  have h2 := claim_C10_overlong_run.2 "x?".data "ABCDEFGHIJKLMNOPQR".data "&z".data
    (by decide) (by decide) (by decide)
  constructor
  · rw [h1]
    decide
  · rw [h2]
    decide

/-!
## Equation lemmas for the capture handlers and the public entry point
-/

theorem startFlowCapture_noparse (armedSt : Slots) (eligible : Bool) (url : List Char)
    (token : Option (List Char)) (hp : parseToken token = none) :
    startFlowCapture armedSt eligible url token =
      { final := resetSlots
        trace := [(armedSt, Ev.logDebug "paymenttoken_startflow"),
                  (resetSlots, Ev.restore),
                  (resetSlots, Ev.parseInput token),
                  (resetSlots, Ev.logError "paymenttoken_startflow_notoken")]
        outcome := Outcome.threw (ErrKind.protocolErr token) } := by
  unfold startFlowCapture
  rw [hp]

theorem startFlowCapture_elig_bare (armedSt : Slots) (url t ec : List Char)
    (hp : parseToken (some t) = some ec) (hm : matchToken t = true) :
    startFlowCapture armedSt true url (some t) =
      { final := resetSlots
        trace := [(armedSt, Ev.logDebug "paymenttoken_startflow"),
                  (resetSlots, Ev.restore),
                  (resetSlots, Ev.parseInput (some t)),
                  (resetSlots, Ev.eligCheck true),
                  (resetSlots, Ev.logDebug "paymenttoken_startflow_tokenpassed"),
                  (resetSlots, Ev.resolve ec)]
        outcome := Outcome.ret } := by
  unfold startFlowCapture
  rw [hp]
  simp [hm]

theorem startFlowCapture_elig_url (armedSt : Slots) (url t ec : List Char)
    (hp : parseToken (some t) = some ec) (hm : matchToken t = false) :
    startFlowCapture armedSt true url (some t) =
      { final := resetSlots
        trace := [(armedSt, Ev.logDebug "paymenttoken_startflow"),
                  (resetSlots, Ev.restore),
                  (resetSlots, Ev.parseInput (some t)),
                  (resetSlots, Ev.eligCheck true),
                  (resetSlots, Ev.logDebug "paymenttoken_startflow_urlpassed"),
                  (resetSlots, Ev.updateProps t),
                  (resetSlots, Ev.resolve ec)]
        outcome := Outcome.ret } := by
  unfold startFlowCapture
  rw [hp]
  simp [hm]

theorem startFlowCapture_inelig (armedSt : Slots) (url t ec : List Char)
    (hp : parseToken (some t) = some ec) :
    startFlowCapture armedSt false url (some t) =
      { final := resetSlots
        trace := [(armedSt, Ev.logDebug "paymenttoken_startflow"),
                  (resetSlots, Ev.restore),
                  (resetSlots, Ev.parseInput (some t)),
                  (resetSlots, Ev.eligCheck false),
                  (resetSlots, Ev.logDebug "paymenttoken_startflow_ineligible"),
                  (resetSlots, Ev.redirect (getFullpageRedirectUrl url t))]
        outcome := Outcome.ret } := by
  unfold startFlowCapture
  rw [hp]
  simp

theorem startFlowPublic_noparse (eligible : Bool) (url : List Char)
    (token : Option (List Char)) (hp : parseToken token = none) :
    startFlowPublic eligible url token =
      { trace := [Ev.logDebug "startflow", Ev.parseInput token,
                  Ev.logWarning "startflow_notoken"]
        outcome := Outcome.threw (ErrKind.protocolErr token) } := by
  unfold startFlowPublic
  rw [hp]

theorem startFlowPublic_inelig (url t ec : List Char)
    (hp : parseToken (some t) = some ec) :
    startFlowPublic false url (some t) =
      { trace := [Ev.logDebug "startflow", Ev.parseInput (some t),
                  Ev.eligCheck false,
                  Ev.logDebug "startflow_ineligible",
                  Ev.redirect (getFullpageRedirectUrl url t)]
        outcome := Outcome.ret } := by
  unfold startFlowPublic
  rw [hp]
  simp

theorem startFlowCapture_trace_shape (armedSt : Slots) (eligible : Bool) (url : List Char)
    (token : Option (List Char)) :
    ∃ rest : List (Slots × Ev),
      (startFlowCapture armedSt eligible url token).trace
        = (armedSt, Ev.logDebug "paymenttoken_startflow") :: rest ∧
      ∀ q ∈ rest, q.1 = resetSlots := by
  cases token with
  | none =>
    rw [startFlowCapture_noparse armedSt eligible url none rfl]
    exact ⟨_, rfl, by simp⟩
  | some t =>
    cases hp : parseToken (some t) with
    | none =>
      rw [startFlowCapture_noparse armedSt eligible url (some t) hp]
      exact ⟨_, rfl, by simp⟩
    | some ec =>
      cases eligible with
      | false =>
        rw [startFlowCapture_inelig armedSt url t ec hp]
        exact ⟨_, rfl, by simp⟩
      | true =>
        cases hm : matchToken t with
        | true =>
          rw [startFlowCapture_elig_bare armedSt url t ec hp hm]
          exact ⟨_, rfl, by simp⟩
        | false =>
          rw [startFlowCapture_elig_url armedSt url t ec hp hm]
          exact ⟨_, rfl, by simp⟩

/-!
## Claims C1-C5, C7, C8: the capture handlers and the public startFlow
-/

/-- Counterexample to C1 as stated: the capture invocation resolves the
acquisition, but `reset()` writes the module-level functions into the
slots rather than the values saved before arming, so when a slot held an
external value before arming it does not get that value back. -/
theorem claim_C1_counterexample :
    ((resetSlots, Ev.resolve "ABCDE12345FGHIJ67".data) ∈
      (startFlowCapture
        (getPaymentToken
          { initXO := SlotVal.external 0, startFlow := SlotVal.external 1,
            closeFlow := SlotVal.external 2 })
        true [] (some "ABCDE12345FGHIJ67".data)).trace) ∧
    (startFlowCapture
        (getPaymentToken
          { initXO := SlotVal.external 0, startFlow := SlotVal.external 1,
            closeFlow := SlotVal.external 2 })
        true [] (some "ABCDE12345FGHIJ67".data)).final ≠
      { initXO := SlotVal.external 0, startFlow := SlotVal.external 1,
        closeFlow := SlotVal.external 2 } := by
  decide

/-- C1 (amended): for every armed acquisition in an eligible context,
invoking the startFlow capture with a bare canonical token resolves the
acquisition with exactly that token and returns normally, and afterwards
the three slots hold the module's original entry points (`resetSlots`) —
which equal the pre-arm values whenever the pre-arm slots were those
entry points, as in the normal lifecycle. -/
theorem claim_C1_arm_resolve_cycle (st : Slots) (url c : List Char)
    (hc : isCanonicalToken c = true) :
    ((resetSlots, Ev.resolve c) ∈
      (startFlowCapture (getPaymentToken st) true url (some c)).trace) ∧
    (startFlowCapture (getPaymentToken st) true url (some c)).final = resetSlots ∧
    (st = resetSlots → (startFlowCapture (getPaymentToken st) true url (some c)).final = st) ∧
    (startFlowCapture (getPaymentToken st) true url (some c)).outcome = Outcome.ret := by
  have hp := parseToken_canonical c hc
  have hm : matchToken c = true := hc
  rw [startFlowCapture_elig_bare (getPaymentToken st) url c c hp hm]
  refine ⟨by simp, rfl, fun h => by rw [h], rfl⟩

/-- Witness for the amended C1 at a concrete pre-arm state and token. -/
theorem claim_C1_arm_resolve_cycle_witness :
    ((resetSlots, Ev.resolve "ABCDE12345FGHIJ67".data) ∈
      (startFlowCapture (getPaymentToken resetSlots) true []
        (some "ABCDE12345FGHIJ67".data)).trace) ∧
    (startFlowCapture (getPaymentToken resetSlots) true []
        (some "ABCDE12345FGHIJ67".data)).final = resetSlots :=
  ⟨(claim_C1_arm_resolve_cycle resetSlots [] "ABCDE12345FGHIJ67".data (by decide)).1,
   (claim_C1_arm_resolve_cycle resetSlots [] "ABCDE12345FGHIJ67".data (by decide)).2.1⟩

/-- Counterexample to C2 as stated: with an armed acquisition, invoking
the startFlow capture with an unparsable input raises the protocol error,
but the trace contains no invocation of the acquisition's `reject`
callback — the code only throws (lines 88-91). -/
theorem claim_C2_counterexample :
    (startFlowCapture armSlots true [] (some "not-a-token".data)).outcome
      = Outcome.threw (ErrKind.protocolErr (some "not-a-token".data)) ∧
    ((startFlowCapture armSlots true [] (some "not-a-token".data)).trace.all
      (fun p => !(isRejectEv p.2))) = true := by
  decide

/-- C2 (amended): for every armed acquisition, when the startFlow capture
is invoked with an input from which no token can be parsed, the handler
restores the slots, logs an error, and raises the unrecoverable
protocol-violation error to the invoker; the acquisition's `reject`
callback is not invoked (nor is `resolve`) — the acquisition is left
unsettled. -/
theorem claim_C2_parse_failure_throws (armedSt : Slots) (eligible : Bool) (url : List Char)
    (token : Option (List Char)) (hp : parseToken token = none) :
    (startFlowCapture armedSt eligible url token).outcome
      = Outcome.threw (ErrKind.protocolErr token) ∧
    (startFlowCapture armedSt eligible url token).final = resetSlots ∧
    ((startFlowCapture armedSt eligible url token).trace.all
      (fun p => !(isRejectEv p.2))) = true ∧
    ((startFlowCapture armedSt eligible url token).trace.all
      (fun p => !(isResolveEv p.2))) = true := by
  rw [startFlowCapture_noparse armedSt eligible url token hp]
  refine ⟨rfl, rfl, by simp [isRejectEv], by simp [isResolveEv]⟩

/-- Witness for the amended C2 at a concrete unparsable input. -/
theorem claim_C2_parse_failure_throws_witness :
    (startFlowCapture armSlots false [] (some "nope".data)).outcome
      = Outcome.threw (ErrKind.protocolErr (some "nope".data)) ∧
    ((startFlowCapture armSlots false [] (some "nope".data)).trace.all
      (fun p => !(isRejectEv p.2))) = true :=
  ⟨(claim_C2_parse_failure_throws armSlots false [] (some "nope".data) (by decide)).1,
   (claim_C2_parse_failure_throws armSlots false [] (some "nope".data) (by decide)).2.2.1⟩

/-- C3: in both capture handlers, the `reset()` restoration runs before
any parsing, eligibility consultation, redirect, prop update, resolve,
reject, or component close: every such step of the trace observes the
restored slot values, not the capture functions. -/
theorem claim_C3_restore_before_logic :
    (∀ (armedSt : Slots) (eligible : Bool) (url : List Char) (token : Option (List Char))
      (p : Slots × Ev), p ∈ (startFlowCapture armedSt eligible url token).trace →
      postRestoreEv p.2 = true → p.1 = resetSlots) ∧
    (∀ (armedSt : Slots) (p : Slots × Ev), p ∈ (closeFlowCapture armedSt).trace →
      postRestoreEv p.2 = true → p.1 = resetSlots) := by
  constructor
  · intro armedSt eligible url token p hm hev
    obtain ⟨rest, hsh, hall⟩ := startFlowCapture_trace_shape armedSt eligible url token
    rw [hsh] at hm
    rcases List.mem_cons.mp hm with rfl | hm2
    · simp [postRestoreEv] at hev
    · exact hall p hm2
  · intro armedSt p hm hev
    rcases List.mem_cons.mp hm with rfl | hm2
    · simp [postRestoreEv] at hev
    · have hall : ∀ q ∈ [(resetSlots, Ev.restore),
          (resetSlots, Ev.reject ErrKind.closeFlowErr),
          (resetSlots, Ev.closeComponent)], q.1 = resetSlots := by simp
      exact hall p hm2

/-- Witness for C3: a concrete resolve step of a concrete armed run, and a
concrete reject step of a concrete close run, both observe `resetSlots`. -/
theorem claim_C3_restore_before_logic_witness :
    ((resetSlots, Ev.resolve "ABCDE12345FGHIJ67".data) ∈
      (startFlowCapture armSlots true [] (some "ABCDE12345FGHIJ67".data)).trace) ∧
    ((resetSlots, Ev.resolve "ABCDE12345FGHIJ67".data) : Slots × Ev).1 = resetSlots ∧
    ((resetSlots, Ev.reject ErrKind.closeFlowErr) ∈ (closeFlowCapture armSlots).trace) ∧
    ((resetSlots, Ev.reject ErrKind.closeFlowErr) : Slots × Ev).1 = resetSlots :=
  ⟨by decide,
   claim_C3_restore_before_logic.1 armSlots true [] (some "ABCDE12345FGHIJ67".data)
     (resetSlots, Ev.resolve "ABCDE12345FGHIJ67".data) (by decide) (by decide),
   by decide,
   claim_C3_restore_before_logic.2 armSlots
     (resetSlots, Ev.reject ErrKind.closeFlowErr) (by decide) (by decide)⟩

/-- C4: for every ineligible context and every input that parses to a
token, the public `startFlow` redirects — to `checkoutUrl ++ "?token=" ++
input` when the input is a bare canonical token, and to the input
unchanged when it is URL-form — and neither renders a component nor
resolves any acquisition. -/
theorem claim_C4_ineligible_redirect (url t ec : List Char)
    (hp : parseToken (some t) = some ec) :
    (matchToken t = true →
      Ev.redirect (url ++ qtokenEq ++ t) ∈ (startFlowPublic false url (some t)).trace) ∧
    (matchToken t = false →
      Ev.redirect t ∈ (startFlowPublic false url (some t)).trace) ∧
    (∀ u pt, Ev.render u pt ∉ (startFlowPublic false url (some t)).trace) ∧
    (∀ tok, Ev.resolve tok ∉ (startFlowPublic false url (some t)).trace) ∧
    (startFlowPublic false url (some t)).outcome = Outcome.ret := by
  rw [startFlowPublic_inelig url t ec hp]
  refine ⟨?_, ?_, by simp, by simp, rfl⟩
  · intro hm
    simp [getFullpageRedirectUrl, hm]
  · intro hm
    simp [getFullpageRedirectUrl, hm]

/-- Witness for C4 at the spec's example token and a concrete base URL. -/
theorem claim_C4_ineligible_redirect_witness :
    Ev.redirect ("base".data ++ qtokenEq ++ "ABCDE12345FGHIJ67".data) ∈
      (startFlowPublic false "base".data (some "ABCDE12345FGHIJ67".data)).trace :=
  (claim_C4_ineligible_redirect "base".data "ABCDE12345FGHIJ67".data
    "ABCDE12345FGHIJ67".data (by decide)).1 (by decide)

/-- C5: for every armed acquisition, invoking the closeFlow capture
rejects the acquisition with the "Close Flow Called" error, returns
normally (the error is consumed internally, not thrown to the invoker),
restores the three slots, and requests that the hosting component be
closed. -/
theorem claim_C5_close_cycle (st : Slots) :
    (closeFlowCapture (getPaymentToken st)).outcome = Outcome.ret ∧
    ((resetSlots, Ev.reject ErrKind.closeFlowErr) ∈
      (closeFlowCapture (getPaymentToken st)).trace) ∧
    ((resetSlots, Ev.closeComponent) ∈ (closeFlowCapture (getPaymentToken st)).trace) ∧
    (closeFlowCapture (getPaymentToken st)).final = resetSlots := by
  refine ⟨rfl, by simp [closeFlowCapture], by simp [closeFlowCapture], rfl⟩

/-- C7: calling the public `startFlow` with an input from which no token
can be parsed throws the protocol-violation error and performs no
redirect and no render. -/
theorem claim_C7_public_protocol_violation (eligible : Bool) (url : List Char)
    (token : Option (List Char)) (hp : parseToken token = none) :
    (startFlowPublic eligible url token).outcome = Outcome.threw (ErrKind.protocolErr token) ∧
    (∀ u, Ev.redirect u ∉ (startFlowPublic eligible url token).trace) ∧
    (∀ u pt, Ev.render u pt ∉ (startFlowPublic eligible url token).trace) := by
  rw [startFlowPublic_noparse eligible url token hp]
  refine ⟨rfl, by simp, by simp⟩

/-- Witness for C7 at the spec's example input "not-a-token". -/
theorem claim_C7_public_protocol_violation_witness :
    (startFlowPublic true "base".data (some "not-a-token".data)).outcome
      = Outcome.threw (ErrKind.protocolErr (some "not-a-token".data)) :=
  (claim_C7_public_protocol_violation true "base".data (some "not-a-token".data)
    (by decide)).1

/-- C8: for an armed acquisition in an eligible context, when the capture
input is URL-form the component's url prop is updated to the input before
the acquisition is resolved with the parsed token, and when the input is
a bare canonical token no prop update occurs. -/
theorem claim_C8_url_prop_before_resolve (armedSt : Slots) (url t ec : List Char)
    (hp : parseToken (some t) = some ec) :
    (matchToken t = false →
      ∃ l1 l2, (startFlowCapture armedSt true url (some t)).trace
          = l1 ++ (resetSlots, Ev.updateProps t) :: l2 ∧
        (∀ s tok, (s, Ev.resolve tok) ∉ l1) ∧ ((resetSlots, Ev.resolve ec) ∈ l2)) ∧
    (matchToken t = true →
      ∀ s u, (s, Ev.updateProps u) ∉ (startFlowCapture armedSt true url (some t)).trace) := by
  constructor
  · intro hm
    rw [startFlowCapture_elig_url armedSt url t ec hp hm]
    refine ⟨[(armedSt, Ev.logDebug "paymenttoken_startflow"), (resetSlots, Ev.restore),
             (resetSlots, Ev.parseInput (some t)), (resetSlots, Ev.eligCheck true),
             (resetSlots, Ev.logDebug "paymenttoken_startflow_urlpassed")],
            [(resetSlots, Ev.resolve ec)], rfl, by simp, by simp⟩
  · intro hm
    rw [startFlowCapture_elig_bare armedSt url t ec hp hm]
    simp

/-- Witness for C8 at a concrete URL-form input and a concrete bare
token. -/
theorem claim_C8_url_prop_before_resolve_witness :
    (∃ l1 l2, (startFlowCapture armSlots true []
        (some "x?token=ABCDE12345FGHIJ67".data)).trace
        = l1 ++ (resetSlots, Ev.updateProps "x?token=ABCDE12345FGHIJ67".data) :: l2 ∧
      (∀ s tok, (s, Ev.resolve tok) ∉ l1) ∧
      ((resetSlots, Ev.resolve "ABCDE12345FGHIJ67".data) ∈ l2)) ∧
    (∀ s u, (s, Ev.updateProps u) ∉
      (startFlowCapture armSlots true [] (some "ABCDE12345FGHIJ67".data)).trace) :=
  ⟨(claim_C8_url_prop_before_resolve armSlots [] "x?token=ABCDE12345FGHIJ67".data
      "ABCDE12345FGHIJ67".data (by decide)).1 (by decide),
   (claim_C8_url_prop_before_resolve armSlots [] "ABCDE12345FGHIJ67".data
      "ABCDE12345FGHIJ67".data (by decide)).2 (by decide)⟩

/-!
## Claim C9: the install guard
-/

/-- C9: installing the legacy API is idempotent: when `setup` is already
present the install attempt logs a console error and leaves the namespace
exactly as it was; a first install always sets `setup`, so a second
install attempt never changes anything. -/
theorem claim_C9_install_idempotent :
    (∀ (ns : CheckoutNS) (f : FnVal), ns.setup = some f →
      (installLegacyAPI ns).1 = ns ∧
      (installLegacyAPI ns).2 = [Ev.consoleError "window.paypal.checkout already exists"]) ∧
    (∀ ns : CheckoutNS, ∃ g, ((installLegacyAPI ns).1).setup = some g) ∧
    (∀ ns : CheckoutNS, (installLegacyAPI (installLegacyAPI ns).1).1
      = (installLegacyAPI ns).1) := by
  refine ⟨?_, ?_, ?_⟩
  · intro ns f h
    simp [installLegacyAPI, h]
  · intro ns
    cases h : ns.setup with
    | none => exact ⟨FnVal.setupFn, by simp [installLegacyAPI, h]⟩
    | some g => exact ⟨g, by simp [installLegacyAPI, h]⟩
  · intro ns
    cases h : ns.setup with
    | none => simp [installLegacyAPI, h]
    | some g => simp [installLegacyAPI, h]

/-- Witness for C9: a second install attempt on an already-populated
namespace changes nothing. -/
theorem claim_C9_install_idempotent_witness :
    (installLegacyAPI
      { setup := some (FnVal.external 5), initXO := some (FnVal.external 6),
        startFlow := none, closeFlow := none, events := none }).1 =
      { setup := some (FnVal.external 5), initXO := some (FnVal.external 6),
        startFlow := none, closeFlow := none, events := none } :=
  (claim_C9_install_idempotent.1
    { setup := some (FnVal.external 5), initXO := some (FnVal.external 6),
      startFlow := none, closeFlow := none, events := none }
    (FnVal.external 5) rfl).1

end PaypalLegacy
